import Mathlib

/-!
Shallow embedding of the ESP8266 network monitor firmware
(src/Internet_Monitor.ino) together with proofs about its settings
store, its periodic health-check cycle, its WiFi link supervisor, its
boot-counter handling and its configuration-save HTTP handler.

Modelling conventions: character strings are lists of byte values
(Nat), the EEPROM is a total function from byte addresses to byte
values, the RTC user memory is an explicit record of the three uint32
counters (arithmetic is taken modulo 2^32), and network probes are
Boolean oracles indexed by the attempt number of the current cycle.
-/

namespace InternetMonitor

/-- Byte values of a string literal; used to state the hardcoded
credential and URL constants of the sketch. -/
def strBytes (s : String) : List Nat :=
  s.data.map Char.toNat

/-- One EEPROM byte-cell update, modelling EEPROM.write(addr, value). -/
def eepromWrite (rom : Nat → Nat) (addr v : Nat) : Nat → Nat :=
  fun x => if x = addr then v else rom x

/-- saveString (lines 130-136): for each i in [0, len) write str[i], or a
null byte once i reaches the end of str, at address addr + i, then
commit.  The recursion writes address addr first and then the remaining
len - 1 addresses, exactly as the source loop does in increasing i. -/
def saveString (str : List Nat) (addr len : Nat) (rom : Nat → Nat) : Nat → Nat :=
  match len with
  | 0 => rom
  | n + 1 => saveString (str.drop 1) (addr + 1) n (eepromWrite rom addr (str.headD 0))

/-- loadString (lines 120-128): read up to len bytes starting at addr,
stopping at the first null byte or erased byte (255). -/
def loadString (rom : Nat → Nat) (addr len : Nat) : List Nat :=
  match len with
  | 0 => []
  | n + 1 =>
    let c := rom addr
    if c = 0 ∨ c = 255 then [] else c :: loadString rom (addr + 1) n

/-- EEPROM field offset of the SSID slot (line 87). -/
abbrev EEPROM_SSID : Nat := 0

/-- EEPROM field offset of the password slot (line 88). -/
abbrev EEPROM_PASSWORD : Nat := 32

/-- EEPROM field offset of the API URL slot (line 89). -/
abbrev EEPROM_API_URL : Nat := 96

/-- The three configuration strings of the sketch (line 92). -/
structure DeviceConfig where
  ssid : List Nat
  password : List Nat
  apiURL : List Nat
deriving Repr, DecidableEq

/-- Loading the three fields from their fixed slots, as done by setup
(lines 1146-1148): ssid from offset 0 width 32, password from offset 32
width 64, API URL from offset 96 width 128. -/
def loadConfig (rom : Nat → Nat) : DeviceConfig :=
  ⟨loadString rom EEPROM_SSID 32,
    loadString rom EEPROM_PASSWORD 64,
    loadString rom EEPROM_API_URL 128⟩

/-- Saving the three fields into their fixed slots, in the order used by
every save site of the sketch (lines 901-903, 1072-1074, 1155-1157):
ssid, then password, then API URL. -/
def saveConfig (cfg : DeviceConfig) (rom : Nat → Nat) : Nat → Nat :=
  saveString cfg.apiURL EEPROM_API_URL 128
    (saveString cfg.password EEPROM_PASSWORD 64
      (saveString cfg.ssid EEPROM_SSID 32 rom))

/-- Hardcoded defaults written by setup when the stored SSID is empty
(lines 1151-1158). -/
def firstBootDefaults : DeviceConfig :=
  ⟨strBytes ("redmi4xx"), strBytes ("komkritc"),
    strBytes ("http://login.npu.ac.th/login?dst=http://www.msftconnecttest.com/redirect&popup=true&username=3449900299486&password=komkritc1975")⟩

/-- Hardcoded triple written by handleResetSettings (lines 154-159). -/
def resetDefaults : DeviceConfig :=
  ⟨strBytes ("myssid"), strBytes ("mypassword"),
    strBytes ("http://login.npu.ac.th/login?123456")⟩

/-- handleResetSettings (lines 154-159): write the reset triple into the
three EEPROM slots, ssid first, then password, then API URL. -/
def handleResetSettings (rom : Nat → Nat) : Nat → Nat :=
  saveConfig resetDefaults rom

/-- Settings-load portion of setup (lines 1146-1158): load the config;
if the loaded SSID has length zero, replace the whole triple by the
first-boot defaults and persist them.  Returns the in-memory config and
the resulting EEPROM. -/
def setupLoadConfig (rom : Nat → Nat) : DeviceConfig × (Nat → Nat) :=
  let c := loadConfig rom
  if c.ssid.length = 0 then (firstBootDefaults, saveConfig firstBootDefaults rom)
  else (c, rom)

theorem saveString_apply (str : List Nat) (addr len : Nat) (rom : Nat → Nat) (x : Nat) :
    saveString str addr len rom x =
      if addr ≤ x ∧ x < addr + len then str.getD (x - addr) 0 else rom x := by
  induction len generalizing str addr rom with
  | zero =>
    rw [saveString, if_neg (by omega)]
  | succ n ih =>
    rw [saveString, ih]
    by_cases h1 : addr + 1 ≤ x ∧ x < addr + 1 + n
    · rw [if_pos h1, if_pos (by omega)]
      have hx : x - addr = (x - (addr + 1)) + 1 := by omega
      rw [hx]
      cases str with
      | nil => simp
      | cons a l => simp
    · rw [if_neg h1]
      unfold eepromWrite
      by_cases h2 : x = addr
      · rw [if_pos h2, if_pos (by omega)]
        have hz : x - addr = 0 := by omega
        rw [hz]
        cases str with
        | nil => simp
        | cons a l => simp
      · rw [if_neg h2, if_neg (by omega)]

theorem loadString_eq (str : List Nat) :
    ∀ (rom : Nat → Nat) (addr len : Nat),
      (∀ j, j < len → rom (addr + j) = str.getD j 0) →
      str.length ≤ len →
      (∀ c ∈ str, c ≠ 0 ∧ c ≠ 255) →
      loadString rom addr len = str := by
  induction str with
  | nil =>
    intro rom addr len hrom _ _
    cases len with
    | zero => rfl
    | succ n =>
      have h0 : rom addr = 0 := by
        have := hrom 0 (by omega)
        simpa using this
      rw [loadString]
      simp [h0]
  | cons c rest ih =>
    intro rom addr len hrom hlen hmem
    cases len with
    | zero => simp at hlen
    | succ n =>
      have hc : rom addr = c := by
        have := hrom 0 (by omega)
        simpa using this
      have hc0 : c ≠ 0 ∧ c ≠ 255 := hmem c (by simp)
      rw [loadString]
      simp only [hc]
      rw [if_neg (by tauto)]
      congr 1
      apply ih
      · intro j hj
        have := hrom (j + 1) (by omega)
        have haddr : addr + (j + 1) = addr + 1 + j := by omega
        rw [haddr] at this
        simpa using this
      · simpa using hlen
      · intro d hd
        exact hmem d (by simp [hd])

theorem loadConfig_saveConfig (cfg : DeviceConfig) (rom : Nat → Nat)
    (h1 : cfg.ssid.length ≤ 32) (h2 : cfg.password.length ≤ 64)
    (h3 : cfg.apiURL.length ≤ 128)
    (m1 : ∀ c ∈ cfg.ssid, c ≠ 0 ∧ c ≠ 255)
    (m2 : ∀ c ∈ cfg.password, c ≠ 0 ∧ c ≠ 255)
    (m3 : ∀ c ∈ cfg.apiURL, c ≠ 0 ∧ c ≠ 255) :
    loadConfig (saveConfig cfg rom) = cfg := by
  obtain ⟨s, p, a⟩ := cfg
  simp only [DeviceConfig.ssid, DeviceConfig.password, DeviceConfig.apiURL] at *
  unfold loadConfig saveConfig
  simp only [EEPROM_SSID, EEPROM_PASSWORD, EEPROM_API_URL]
  rw [DeviceConfig.mk.injEq]
  refine ⟨?_, ?_, ?_⟩
  · apply loadString_eq s _ _ _ _ h1 m1
    intro j hj
    rw [saveString_apply, if_neg (by omega), saveString_apply, if_neg (by omega),
      saveString_apply, if_pos (by omega)]
    simp
  · apply loadString_eq p _ _ _ _ h2 m2
    intro j hj
    rw [saveString_apply, if_neg (by omega), saveString_apply, if_pos (by omega)]
    have hz : 32 + j - 32 = j := by omega
    rw [hz]
  · apply loadString_eq a _ _ _ _ h3 m3
    intro j hj
    rw [saveString_apply, if_pos (by omega)]
    have hz : 96 + j - 96 = j := by omega
    rw [hz]

/-- C3 counterexample: starting from fully erased storage, a factory
reset followed by a load does not yield the triple that first-ever boot
uses to populate empty storage; the two hardcoded triples differ. -/
theorem C3_counterexample :
    loadConfig (handleResetSettings (fun _ => 255)) ≠ firstBootDefaults := by
  have h : loadConfig (handleResetSettings (fun _ => 255)) = resetDefaults := by
    unfold handleResetSettings
    exact loadConfig_saveConfig resetDefaults _ (by decide) (by decide) (by decide)
      (by decide) (by decide) (by decide)
  rw [h]
  decide

/-- C3 (amended): the sketch uses two distinct hardcoded triples.  For
every EEPROM state, handleResetSettings followed by loadConfig yields
exactly the reset triple (myssid, mypassword, the short login URL), all
fields of which are nonempty; first-ever boot with empty storage instead
populates the config with the distinct firstBootDefaults triple. -/
theorem C3_default_triples :
    (∀ rom : Nat → Nat, loadConfig (handleResetSettings rom) = resetDefaults)
    ∧ (setupLoadConfig (fun _ => 255)).1 = firstBootDefaults
    ∧ firstBootDefaults ≠ resetDefaults
    ∧ resetDefaults.ssid ≠ [] ∧ resetDefaults.password ≠ [] ∧ resetDefaults.apiURL ≠ [] := by
  refine ⟨?_, by decide, by decide, by decide, by decide, by decide⟩
  intro rom
  unfold handleResetSettings
  exact loadConfig_saveConfig resetDefaults rom (by decide) (by decide) (by decide)
    (by decide) (by decide) (by decide)

/-- C6: for any DeviceConfig whose fields are within the declared
length bounds (32, 64, 128 bytes) and contain no terminator byte (null
or 255), saveConfig followed by loadConfig returns the config unchanged
(truncation to the maximum field lengths is the identity here). -/
theorem C6_save_load_roundtrip (cfg : DeviceConfig) (rom : Nat → Nat)
    (h1 : cfg.ssid.length ≤ 32) (h2 : cfg.password.length ≤ 64)
    (h3 : cfg.apiURL.length ≤ 128)
    (m1 : ∀ c ∈ cfg.ssid, c ≠ 0 ∧ c ≠ 255)
    (m2 : ∀ c ∈ cfg.password, c ≠ 0 ∧ c ≠ 255)
    (m3 : ∀ c ∈ cfg.apiURL, c ≠ 0 ∧ c ≠ 255) :
    loadConfig (saveConfig cfg rom) = cfg :=
  loadConfig_saveConfig cfg rom h1 h2 h3 m1 m2 m3

/-- C6 witness: a concrete in-bounds config round-trips through an
erased EEPROM unchanged. -/
theorem C6_save_load_roundtrip_witness :
    loadConfig (saveConfig ⟨[114, 49], [112, 50], [104, 51]⟩ (fun _ => 255))
      = ⟨[114, 49], [112, 50], [104, 51]⟩ :=
  C6_save_load_roundtrip ⟨[114, 49], [112, 50], [104, 51]⟩ (fun _ => 255)
    (by decide) (by decide) (by decide) (by decide) (by decide) (by decide)

/-- Retry limit for internet and API probes (line 103). -/
def maxRetries : Nat := 3

/-- Delay in milliseconds between failed probe attempts (line 104). -/
def retryDelay : Nat := 5000

/-- Interval in milliseconds between health-check cycles (line 101). -/
def checkInterval : Nat := 30000

/-- The uint32 counters kept in RTC user memory (lines 107-111). -/
structure UptimeData where
  bootCount : Nat
  internetUp : Nat
  apiSuccess : Nat
deriving Repr, DecidableEq

/-- uint32 arithmetic wraparound. -/
def u32 (n : Nat) : Nat := n % 4294967296

/-- blinkPattern (lines 144-151): count blinks of duration msOn each,
separated by pauses of msOff; modelled as the list of emitted blink
durations. -/
def blinkPattern (count msOn msOff : Nat) : List Nat :=
  List.replicate count msOn

/-- Mutable state threaded through the retry loops of
performInternetCheck (lines 195-229): the global internetOK flag
(line 93), the local apiOK flag and the two attempt counters
(lines 199-201), plus counts of the retryDelay pauses inserted after
failed attempts. -/
structure CheckSt where
  internetOK : Bool
  apiOK : Bool
  pingAttempts : Nat
  apiAttempts : Nat
  pingDelays : Nat
  apiDelays : Nat
deriving Repr, DecidableEq

/-- The inner API retry loop (lines 213-224): while apiAttempts is below
maxRetries and apiOK is false, increment apiAttempts, probe the API
(oracle api, indexed by attempt number); on success set apiOK, on
failure insert a retryDelay pause unless this was the last attempt.
Fuel bounds the iteration count; maxRetries + 1 units always suffice. -/
def apiLoop (api : Nat → Bool) : Nat → CheckSt → CheckSt
  | 0, s => s
  | fuel + 1, s =>
    if s.apiAttempts < maxRetries ∧ s.apiOK = false then
      if api (s.apiAttempts + 1) then
        apiLoop api fuel { s with apiAttempts := s.apiAttempts + 1, apiOK := true }
      else
        let d := if s.apiAttempts + 1 < maxRetries then s.apiDelays + 1 else s.apiDelays
        apiLoop api fuel { s with apiAttempts := s.apiAttempts + 1, apiDelays := d }
    else s

/-- The outer internet retry loop (lines 204-229): while pingAttempts is
below maxRetries and internetOK is false, increment pingAttempts and
probe the well-known hosts (oracle ping, the short-circuit disjunction
of the two pingHost calls on line 208, indexed by attempt number).  On
success set internetOK and immediately run the API sub-loop; on failure
insert a retryDelay pause unless this was the last attempt. -/
def internetLoop (ping api : Nat → Bool) : Nat → CheckSt → CheckSt
  | 0, s => s
  | fuel + 1, s =>
    if s.pingAttempts < maxRetries ∧ s.internetOK = false then
      if ping (s.pingAttempts + 1) then
        internetLoop ping api fuel
          (apiLoop api (maxRetries + 1) { s with pingAttempts := s.pingAttempts + 1, internetOK := true })
      else
        let d := if s.pingAttempts + 1 < maxRetries then s.pingDelays + 1 else s.pingDelays
        internetLoop ping api fuel { s with pingAttempts := s.pingAttempts + 1, pingDelays := d }
    else s

/-- Observable outcome of one performInternetCheck cycle. -/
structure CycleOut where
  check : CheckSt
  d8 : Bool
  d7 : Bool
  blinks : List Nat
  rtc : UptimeData
  rtcStored : UptimeData
  rtcWritten : Bool

/-- performInternetCheck (lines 195-253).  internetOK0 is the value of
the global internetOK flag on entry: the cycle never resets it (the
local declaration on line 198 is commented out).  apiOK starts false and
the attempt counters start at zero (lines 199-201).  After the retry
loops, both status LEDs are written from internetOK (lines 231-233,
ignoring their previous levels d7prev and d8prev), the tiered blink
feedback is emitted and apiSuccess incremented on full success
(lines 236-243), internetUp is incremented when internetOK holds
(line 246), and the counters are written back to RTC memory
(line 247).  The straight-line tail of the cycle after the retry loops
(lines 231-253) is factored out as cycleFinish. -/
def cycleFinish (s : CheckSt) (rtc0 : UptimeData) : CycleOut :=
  let d8 := s.internetOK
  let d7 := !s.internetOK
  let blinks :=
    if s.internetOK && s.apiOK then blinkPattern 2 100 100
    else if !s.internetOK then blinkPattern 3 100 100
    else blinkPattern 1 500 0
  let rtc1 := if s.internetOK && s.apiOK then
      { rtc0 with apiSuccess := u32 (rtc0.apiSuccess + 1) } else rtc0
  let rtc2 := if s.internetOK then
      { rtc1 with internetUp := u32 (rtc1.internetUp + 1) } else rtc1
  ⟨s, d8, d7, blinks, rtc2, rtc2, true⟩

def performInternetCheck (ping api : Nat → Bool) (internetOK0 : Bool)
    (rtc0 : UptimeData) (d7prev d8prev : Bool) : CycleOut :=
  cycleFinish (internetLoop ping api (maxRetries + 1) ⟨internetOK0, false, 0, 0, 0, 0⟩) rtc0

theorem cycleFinish_rtc (s : CheckSt) (rtc0 : UptimeData) :
    (cycleFinish s rtc0).rtc.bootCount = rtc0.bootCount
    ∧ (cycleFinish s rtc0).rtc.internetUp
      = (if s.internetOK then u32 (rtc0.internetUp + 1) else rtc0.internetUp)
    ∧ (cycleFinish s rtc0).rtc.apiSuccess
      = (if s.internetOK && s.apiOK then u32 (rtc0.apiSuccess + 1) else rtc0.apiSuccess)
    ∧ (cycleFinish s rtc0).rtcStored = (cycleFinish s rtc0).rtc
    ∧ (cycleFinish s rtc0).rtcWritten = true := by
  obtain ⟨iok, aok, pa, aa, pd, ad⟩ := s
  cases iok <;> cases aok <;> simp [cycleFinish]

theorem cycleFinish_blinks (s : CheckSt) (rtc0 : UptimeData) :
    (cycleFinish s rtc0).blinks
      = (if s.internetOK && s.apiOK then [100, 100]
          else if s.internetOK then [500]
          else [100, 100, 100]) := by
  obtain ⟨iok, aok, pa, aa, pd, ad⟩ := s
  cases iok <;> cases aok <;> simp [cycleFinish, blinkPattern, List.replicate]

theorem apiLoop_internetOK (api : Nat → Bool) :
    ∀ (fuel : Nat) (s : CheckSt), (apiLoop api fuel s).internetOK = s.internetOK := by
  intro fuel
  induction fuel with
  | zero => intro s; rfl
  | succ n ih =>
    intro s
    rw [apiLoop]
    by_cases hc : s.apiAttempts < maxRetries ∧ s.apiOK = false
    · rw [if_pos hc]
      by_cases hapi : api (s.apiAttempts + 1) = true
      · rw [if_pos hapi, ih]
      · rw [if_neg hapi, ih]
    · rw [if_neg hc]

theorem internetLoop_apiOK_imp (ping api : Nat → Bool) :
    ∀ (fuel : Nat) (s : CheckSt), (s.apiOK = true → s.internetOK = true) →
      (internetLoop ping api fuel s).apiOK = true →
      (internetLoop ping api fuel s).internetOK = true := by
  intro fuel
  induction fuel with
  | zero => intro s h; exact h
  | succ n ih =>
    intro s h
    rw [internetLoop]
    by_cases hc : s.pingAttempts < maxRetries ∧ s.internetOK = false
    · rw [if_pos hc]
      by_cases hping : ping (s.pingAttempts + 1) = true
      · rw [if_pos hping]
        apply ih
        intro _
        rw [apiLoop_internetOK]
      · rw [if_neg hping]
        apply ih
        intro hap
        exact h hap
    · rw [if_neg hc]
      exact h

/-- C2: at the end of every health-check cycle, the apiOK flag is true
only if the internetOK flag is true in that same cycle. -/
theorem C2_api_implies_internet (ping api : Nat → Bool) (ok0 : Bool)
    (rtc0 : UptimeData) (d7prev d8prev : Bool)
    (h : (performInternetCheck ping api ok0 rtc0 d7prev d8prev).check.apiOK = true) :
    (performInternetCheck ping api ok0 rtc0 d7prev d8prev).check.internetOK = true := by
  simp only [performInternetCheck] at h ⊢
  apply internetLoop_apiOK_imp ping api (maxRetries + 1) ⟨ok0, false, 0, 0, 0, 0⟩ _ h
  intro hfalse
  simp at hfalse

/-- C2 witness: with every probe succeeding and the flag initially
false, the cycle ends with apiOK true and internetOK true. -/
theorem C2_api_implies_internet_witness :
    (performInternetCheck (fun _ => true) (fun _ => true) false ⟨0, 0, 0⟩ false false).check.apiOK = true
    ∧ (performInternetCheck (fun _ => true) (fun _ => true) false ⟨0, 0, 0⟩ false false).check.internetOK = true :=
  ⟨by decide,
    C2_api_implies_internet (fun _ => true) (fun _ => true) false ⟨0, 0, 0⟩ false false (by decide)⟩

/-- C1 (code bug): a health-check cycle entered with the global
internetOK flag still true from an earlier cycle makes zero probe
attempts (the claim requires at least one), leaves internetOK true even
though every probe oracle fails, and still increments internetUp. -/
theorem C1_sticky_flag_skips_probes :
    (performInternetCheck (fun _ => false) (fun _ => false) true ⟨0, 0, 0⟩ false false).check.pingAttempts = 0
    ∧ (performInternetCheck (fun _ => false) (fun _ => false) true ⟨0, 0, 0⟩ false false).check.internetOK = true
    ∧ (performInternetCheck (fun _ => false) (fun _ => false) true ⟨0, 0, 0⟩ false false).rtc.internetUp = 1 := by
  decide

/-- C5 (code bug): in a cycle entered with the sticky global internetOK
flag still true, the code increments internetUp to 1 even though every
probe fails, so internet is not reachable in that cycle; and in the same
situation with internet and API both genuinely reachable (every probe
oracle succeeding), the API sub-loop is never entered (zero API
attempts) and apiSuccess stays 0, so the counter conditioned on both
being reachable is not incremented. -/
theorem C5_sticky_flag_counters :
    (performInternetCheck (fun _ => false) (fun _ => false) true ⟨0, 0, 0⟩ false false).rtc.internetUp = 1
    ∧ (performInternetCheck (fun _ => true) (fun _ => true) true ⟨0, 0, 0⟩ false false).check.apiAttempts = 0
    ∧ (performInternetCheck (fun _ => true) (fun _ => true) true ⟨0, 0, 0⟩ false false).rtc.apiSuccess = 0 := by
  decide

/-- C8 (code bug): in a cycle entered with the sticky global internetOK
flag still true and every probe failing, internet is unreachable in that
cycle (no probe could succeed), yet the code drives the internet-up LED
D8 high and the internet-down LED D7 low, violating the claimed
high-iff-unreachable behaviour of D7. -/
theorem C8_sticky_flag_leds :
    (performInternetCheck (fun _ => false) (fun _ => false) true ⟨0, 0, 0⟩ false false).check.pingAttempts = 0
    ∧ (performInternetCheck (fun _ => false) (fun _ => false) true ⟨0, 0, 0⟩ false false).d8 = true
    ∧ (performInternetCheck (fun _ => false) (fun _ => false) true ⟨0, 0, 0⟩ false false).d7 = false := by
  decide

/-- C9 (code bug): in any cycle entered with the sticky global
internetOK flag still true, the code emits one long 500 ms blink
regardless of actual reachability: with every probe failing (internet
unreachable, where the claim requires three short blinks), and equally
with every probe succeeding (internet and API both reachable, where the
claim requires two short blinks; the API sub-loop is unreachable, so
apiOK can never become true in such a cycle). -/
theorem C9_sticky_flag_blinks :
    (performInternetCheck (fun _ => false) (fun _ => false) true ⟨0, 0, 0⟩ false false).blinks = [500]
    ∧ (performInternetCheck (fun _ => true) (fun _ => true) true ⟨0, 0, 0⟩ false false).blinks = [500] := by
  decide

/-- Outcome of one checkWiFiHealth tick: whether the device restarted
(line 181), whether a disconnect/reconnect action was performed
(lines 186-192), and the value of the static rssiFailCount afterwards. -/
structure WifiHealthOut where
  restart : Bool
  reconnect : Bool
  rssiFailCount : Nat
deriving Repr, DecidableEq

/-- checkWiFiHealth (lines 177-193): if the station link is down,
restart immediately; otherwise increment the streak counter when RSSI
is below -90 dBm and reset it to zero when not; once the counter
reaches 6, disconnect, reconnect and reset the counter to zero. -/
def checkWiFiHealth (connected : Bool) (rssi : Int) (count : Nat) : WifiHealthOut :=
  if connected = false then ⟨true, false, count⟩
  else
    let c := if rssi < -90 then count + 1 else 0
    if 6 ≤ c then ⟨false, true, 0⟩ else ⟨false, false, c⟩

/-- A run of connected link-supervisor ticks over a list of RSSI
readings, threading the static streak counter; returns the final
counter value and the number of disconnect/reconnect actions
performed. -/
def runTicks : List Int → Nat → Nat × Nat
  | [], count => (count, 0)
  | r :: rest, count =>
    let o := checkWiFiHealth true r count
    let (c, n) := runTicks rest o.rssiFailCount
    (c, (if o.reconnect then 1 else 0) + n)

theorem runTicks_low_short (l : List Int) :
    ∀ (c : Nat), (∀ r ∈ l, r < -90) → c + l.length < 6 →
      runTicks l c = (c + l.length, 0) := by
  induction l with
  | nil => intro c _ _; simp [runTicks]
  | cons r rest ih =>
    intro c hlow hlen
    have hr : r < -90 := hlow r (by simp)
    simp only [runTicks, checkWiFiHealth]
    rw [if_neg (by simp), if_pos hr, if_neg (by simp at hlen; omega)]
    rw [ih (c + 1) (fun x hx => hlow x (by simp [hx])) (by simp at hlen ⊢; omega)]
    simp at hlen ⊢
    omega

theorem runTicks_low_six (l : List Int) :
    ∀ (c : Nat), (∀ r ∈ l, r < -90) → c ≤ 5 → c + l.length = 6 →
      runTicks l c = (0, 1) := by
  induction l with
  | nil => intro c _ hc hlen; simp at hlen; omega
  | cons r rest ih =>
    intro c hlow hc hlen
    have hr : r < -90 := hlow r (by simp)
    simp only [runTicks, checkWiFiHealth]
    rw [if_neg (by simp), if_pos hr]
    by_cases h6 : 6 ≤ c + 1
    · rw [if_pos h6]
      have hrest : rest = [] := by
        have : rest.length = 0 := by simp at hlen; omega
        exact List.length_eq_zero.mp this
      subst hrest
      simp [runTicks]
    · rw [if_neg h6]
      rw [ih (c + 1) (fun x hx => hlow x (by simp [hx])) (by omega) (by simp at hlen ⊢; omega)]
      simp

/-- C7: starting from a reset streak counter, six consecutive connected
ticks with RSSI below -90 dBm cause exactly one disconnect/reconnect
action and leave the counter reset to zero; five or fewer such ticks
cause none; and a connected tick with RSSI at or above -90 dBm resets
the counter to zero without any action. -/
theorem C7_rssi_streak (l : List Int) (hlow : ∀ r ∈ l, r < -90) :
    (l.length = 6 → runTicks l 0 = (0, 1))
    ∧ (l.length ≤ 5 → runTicks l 0 = (l.length, 0))
    ∧ (∀ (r : Int) (c : Nat), ¬ r < -90 → checkWiFiHealth true r c = ⟨false, false, 0⟩) := by
  refine ⟨?_, ?_, ?_⟩
  · intro h6
    exact runTicks_low_six l 0 hlow (by omega) (by omega)
  · intro h5
    have := runTicks_low_short l 0 hlow (by omega)
    simpa using this
  · intro r c hr
    simp [checkWiFiHealth, hr]

/-- C7 witness: six connected ticks at -95 dBm from a reset counter
yield exactly one reconnect action and a counter of zero. -/
theorem C7_rssi_streak_witness :
    runTicks [-95, -95, -95, -95, -95, -95] 0 = (0, 1) :=
  (C7_rssi_streak [-95, -95, -95, -95, -95, -95] (by decide)).1 (by decide)

/-- RTC-counter portion of normalSetup (lines 984-991): read the RTC
user memory; when the read fails, zero all three counters; then
increment bootCount and write the block back. -/
def normalSetupRtc (rtcReadable : Bool) (stored : UptimeData) : UptimeData :=
  let r := if rtcReadable then stored else ⟨0, 0, 0⟩
  { r with bootCount := u32 (r.bootCount + 1) }

/-- Boot-mode dispatch of setup (lines 1176-1181): when the station
connection succeeds within its timeout, normalSetup runs (and updates
the RTC counters); when it fails, configMode runs, which never touches
the RTC counters (lines 834-978).  Value of the RTC counter block after
the boot-time initialization. -/
def setupRtc (wifiConnects rtcReadable : Bool) (stored : UptimeData) : UptimeData :=
  if wifiConnects then normalSetupRtc rtcReadable stored else stored

/-- C4 counterexample: a boot whose station connection fails ends in
configuration-portal mode and does not increment bootCount (stored
value 5 stays 5 instead of becoming 6), refuting the claim that
bootCount is incremented exactly once regardless of the operating mode
the boot ends in. -/
theorem C4_counterexample :
    setupRtc false true ⟨5, 2, 1⟩ = ⟨5, 2, 1⟩
    ∧ (setupRtc false true ⟨5, 2, 1⟩).bootCount ≠ 6 := by
  decide

/-- C4 (amended): bootCount is incremented exactly once on every boot
that reaches Station mode, and the subsequent health-check cycle never
changes it; a boot that falls into configuration-portal mode leaves the
whole counter block untouched; whenever the survive-reset memory is
unreadable all three counters are first zeroed, so such a station boot
leaves exactly bootCount 1, internetUp 0, apiSuccess 0. -/
theorem C4_bootcount (rtcReadable : Bool) (stored : UptimeData) :
    (setupRtc true rtcReadable stored).bootCount
      = u32 ((if rtcReadable then stored.bootCount else 0) + 1)
    ∧ setupRtc false rtcReadable stored = stored
    ∧ normalSetupRtc false stored = ⟨1, 0, 0⟩
    ∧ (∀ (ping api : Nat → Bool) (ok0 d7prev d8prev : Bool),
        (performInternetCheck ping api ok0 stored d7prev d8prev).rtc.bootCount
          = stored.bootCount) := by
  refine ⟨?_, rfl, rfl, ?_⟩
  · cases rtcReadable <;> simp [setupRtc, normalSetupRtc]
  · intro ping api ok0 d7prev d8prev
    exact (cycleFinish_rtc (internetLoop ping api (maxRetries + 1) ⟨ok0, false, 0, 0, 0, 0⟩) stored).1

/-- Global state visible to the /save HTTP handler: the three in-memory
configuration strings (line 92), the EEPROM contents, and the RTC
counter block. -/
structure NetGlobals where
  ssid : List Nat
  password : List Nat
  apiURL : List Nat
  rom : Nat → Nat
  rtc : UptimeData

/-- Result of one /save request: the HTTP status code sent, the global
state afterwards, and whether the device restarts. -/
structure SaveOutcome where
  status : Nat
  globals : NetGlobals
  restart : Bool

/-- The POST /save handler, registered identically in configuration
mode (lines 894-931) and in station mode (lines 1065-1102): when the
request has an ssid argument, copy the three arguments into the global
strings (a missing password or api_url argument reads as the empty
string), persist them to EEPROM, answer 200 and restart; when the ssid
argument is missing, answer 400 with the plain-text error and change
nothing. -/
def handleSave (ssidArg passwordArg apiUrlArg : Option (List Nat))
    (g : NetGlobals) : SaveOutcome :=
  match ssidArg with
  | some s =>
    let pw := passwordArg.getD []
    let au := apiUrlArg.getD []
    let rom3 := saveString au EEPROM_API_URL 128
      (saveString pw EEPROM_PASSWORD 64 (saveString s EEPROM_SSID 32 g.rom))
    ⟨200, { g with ssid := s, password := pw, apiURL := au, rom := rom3 }, true⟩
  | none => ⟨400, g, false⟩

/-- C10: a POST /save without the ssid field is answered with status
400, leaves the in-memory strings, the EEPROM and the counters exactly
as they were, and does not restart the device. -/
theorem C10_missing_ssid_rejected (passwordArg apiUrlArg : Option (List Nat))
    (g : NetGlobals) :
    handleSave none passwordArg apiUrlArg g = ⟨400, g, false⟩ :=
  rfl

end InternetMonitor
